import Mathlib

/-!
Shallow embedding of the rpgp key-generation and self-certification core
(`src/key.rs`): key-material generation, secret-parameter protection,
parameter builders with validation, key assembly, and the self-signature /
binding-signature engine, together with theorems about their behaviour.

External collaborators (the rsa / dalek crates, the packet layer, the
string-to-key and symmetric-encryption primitives, clock and RNG) are kept
abstract: they appear either as symbolic values drawn from an `Rng` record or
as function-valued fields of a `SignEnv` record, exactly as the specification
describes them ("consumed as an abstract capability").
-/

set_option linter.unusedVariables false
set_option synthInstance.maxHeartbeats 1000000
set_option maxHeartbeats 1000000

namespace Rpgp

/-- A byte (0..255), modelled as `Nat`. -/
abbrev Byte := Nat

/-- `std::time::Duration`, reduced to its whole-second count (`as_secs`). -/
abbrev Duration := Nat

/-- `chrono::DateTime<Utc>`, modelled as an abstract timestamp. -/
abbrev DateTime := Nat

/-- `types::Version` (packet version), modelled abstractly. -/
abbrev Version := Nat

/-- `types::KeyVersion` (key format version), modelled abstractly. -/
abbrev KeyVersion := Nat

/-- A key id, as produced by the external "derive key id" capability. -/
abbrev KeyId := Nat

/-- A fingerprint, as produced by the external fingerprint capability. -/
abbrev Fingerprint := List Byte

/-- Modelled from the spec: the default of `types::Version`, used by
`UserId::from_str(Default::default(), ..)`. -/
def versionDefault : Version := 0

/-- Modelled from the spec: the default of `types::KeyVersion`, the
"key-format version" stored with encrypted secret parameters. -/
def keyVersionDefault : KeyVersion := 4

inductive PublicKeyAlgorithm where
  | RSA
  | ECDH
  | EdDSA
deriving DecidableEq, Inhabited

inductive SymmetricKeyAlgorithm where
  | AES128
  | AES192
  | AES256
deriving DecidableEq, Inhabited

inductive HashAlgorithm where
  | SHA1
  | SHA224
  | SHA256
  | SHA384
  | SHA512
deriving DecidableEq, Inhabited

inductive CompressionAlgorithm where
  | ZIP
  | ZLIB
deriving DecidableEq, Inhabited

inductive ECCCurve where
  | Curve25519
  | Ed25519
deriving DecidableEq, Inhabited

/-- `types::RevocationKey`, opaque at this layer. -/
structure RevocationKey where
  code : Nat
deriving DecidableEq, Inhabited

/-- `packet::UserAttribute`, opaque at this layer. -/
structure UserAttribute where
  attr : Nat
deriving DecidableEq, Inhabited

/-- `packet::UserId`. -/
structure UserId where
  packet_version : Version
  id : String
deriving DecidableEq, Inhabited

/-- `UserId::from_str`. -/
def UserId.from_str (pv : Version) (s : String) : UserId := ⟨pv, s⟩

/-- `PacketTrait::tag` for a user id packet: a constant. -/
def UserId.tag (_ : UserId) : Nat := 13

/-- Modelled from the spec: `packet::KeyFlags` is a capability bitset with
certify, sign, encrypt-communications and encrypt-storage flags; the packet
layer defining it is outside this core. All flags default to off. -/
structure KeyFlags where
  certify : Bool := false
  sign : Bool := false
  encrypt_comms : Bool := false
  encrypt_storage : Bool := false
deriving DecidableEq, Inhabited

/-- `KeyFlags::default()`. -/
def KeyFlags.default : KeyFlags := {}

def KeyFlags.set_certify (f : KeyFlags) (b : Bool) : KeyFlags := { f with certify := b }

def KeyFlags.set_sign (f : KeyFlags) (b : Bool) : KeyFlags := { f with sign := b }

def KeyFlags.set_encrypt_comms (f : KeyFlags) (b : Bool) : KeyFlags := { f with encrypt_comms := b }

def KeyFlags.set_encrypt_storage (f : KeyFlags) (b : Bool) : KeyFlags := { f with encrypt_storage := b }

/-- Modelled from the spec: the `Into<Vec<u8>>` serialization of the key-flag
bitset (certify 0x01, sign 0x02, encrypt-communications 0x04,
encrypt-storage 0x08), defined by the external packet layer. -/
def KeyFlags.toBytes (f : KeyFlags) : List Byte :=
  [(if f.certify then 1 else 0) + (if f.sign then 2 else 0) +
   (if f.encrypt_comms then 4 else 0) + (if f.encrypt_storage then 8 else 0)]

/-- `KeyType` from `src/key.rs`. -/
inductive KeyType where
  | Rsa (size : Nat)
  | ECDH
  | EdDSA
deriving DecidableEq, Inhabited

/-- `KeyType::to_alg`. -/
def KeyType.to_alg : KeyType → PublicKeyAlgorithm
  | .Rsa _ => .RSA
  | .ECDH => .ECDH
  | .EdDSA => .EdDSA

/-- `crypto::public_key::PublicParams`, restricted to the variants this core
produces. -/
inductive PublicParams where
  | RSA (n e : Nat)
  | ECDH (curve : ECCCurve) (p : List Byte) (hash : HashAlgorithm)
      (alg_sym : SymmetricKeyAlgorithm)
  | EdDSA (curve : ECCCurve) (q : List Byte)
deriving DecidableEq, Inhabited

/-- `types::PlainSecretParams`, restricted to the variants this core produces. -/
inductive PlainSecretParams where
  | RSA (d p q u : Nat)
  | ECDH (secret : List Byte)
  | EdDSA (seed : List Byte)
deriving DecidableEq, Inhabited

/-- Modelled from the spec: a string-to-key descriptor, carrying the fresh
random salt drawn by `StringToKey::new_default`. -/
structure StringToKey where
  salt : List Byte
deriving DecidableEq, Inhabited

/-- Modelled from the spec: the result of the external "encrypt secret fields
under a passphrase" capability — ciphertext of the raw fields plus the S2K
descriptor, symmetric-algorithm id, checksum-kind id and key-format version.
The ciphertext is kept symbolic (the encryption primitive is external), so the
record stores the arguments the capability was invoked with. -/
structure EncryptedSecretParams where
  plain : PlainSecretParams
  passphrase : String
  alg : SymmetricKeyAlgorithm
  s2k : StringToKey
  version : KeyVersion
  id : Nat
deriving DecidableEq, Inhabited

/-- `types::SecretParams`. -/
inductive SecretParams where
  | Plain (p : PlainSecretParams)
  | Encrypted (e : EncryptedSecretParams)
deriving DecidableEq, Inhabited

/-- Result of a computation that can fail recoverably (Rust `Err`) or abort
the process (Rust `panic!` via `expect`). The distinction matters: the spec
treats a missing issuer key id as a fatal, non-recoverable failure. -/
inductive Outcome (α : Type) where
  | panic (msg : String)
  | error (msg : String)
  | ok (a : α)
deriving DecidableEq, Inhabited

def Outcome.bind {α β : Type} : Outcome α → (α → Outcome β) → Outcome β
  | .panic m, _ => .panic m
  | .error e, _ => .error e
  | .ok a, f => f a

instance : Monad Outcome where
  pure := Outcome.ok
  bind := Outcome.bind

/-- `Option::expect`: produce the value or abort with the given message. -/
def Outcome.expectSome {α : Type} : Option α → String → Outcome α
  | some a, _ => .ok a
  | none, msg => .panic msg

/-- Lift a recoverable result (external capability) into `Outcome`. -/
def Outcome.liftE {α : Type} : Except String α → Outcome α
  | .ok a => .ok a
  | .error e => .error e

def Outcome.isPanic {α : Type} : Outcome α → Bool
  | .panic _ => true
  | _ => false

def Outcome.getD {α : Type} : Outcome α → α → α
  | .ok a, _ => a
  | _, d => d

/-- `Iterator::collect::<Result<Vec<_>, _>>`: run the fallible function over
the list in order, short-circuiting at the first failure. -/
def collectOutcome {α β : Type} (f : α → Outcome β) : List α → Outcome (List β)
  | [] => .ok []
  | a :: as =>
    match f a with
    | .panic m => .panic m
    | .error e => .error e
    | .ok b =>
      match collectOutcome f as with
      | .panic m => .panic m
      | .error e => .error e
      | .ok bs => .ok (b :: bs)

/-- Like `collectOutcome`, but the function also receives the position of the
element. Used only to hand each subkey generation its own fresh random
source, mirroring the fact that every `KeyType::generate` call acquires a new
OS RNG. -/
def collectOutcomeIdx {α β : Type} (f : Nat → α → Outcome β) : Nat → List α → Outcome (List β)
  | _, [] => .ok []
  | i, a :: as =>
    match f i a with
    | .panic m => .panic m
    | .error e => .error e
    | .ok b =>
      match collectOutcomeIdx f (i + 1) as with
      | .panic m => .panic m
      | .error e => .error e
      | .ok bs => .ok (b :: bs)

/-- `Except::is_ok` as a plain Bool-valued function. -/
def exceptOk {ε α : Type} : Except ε α → Bool
  | .ok _ => true
  | .error _ => false

/-- The external RSA private key produced by `rsa::RSAPrivateKey::new`:
modulus, public and private exponents, and the two primes (the external type
guarantees at least two primes; we record them directly). -/
structure RsaPrivateKey where
  n : Nat
  e : Nat
  d : Nat
  p : Nat
  q : Nat
deriving DecidableEq, Inhabited

/-- `num_bigint::ModInverse::mod_inverse`: the inverse of `a` modulo `n`,
when `a` and `n` are coprime. -/
def modInverse (a n : Nat) : Option Nat :=
  if Nat.gcd a n = 1 then some (((Nat.gcdA a n) % (n : Int)).toNat) else none

/-- The cryptographically secure random source, together with the outputs of
the external key-generation primitives driven by it. The 32- and 64-byte
lengths are type-level guarantees of the external dalek crates (`[u8; 32]`,
`[u8; 64]`), recorded here as invariants. -/
structure Rng where
  rsaNew : Nat → Except String RsaPrivateKey
  x25519Secret : List Byte
  x25519Public : List Byte
  edKeypairBytes : List Byte
  s2kSalt : List Byte
  x25519SecretLen : x25519Secret.length = 32
  x25519PublicLen : x25519Public.length = 32
  edKeypairLen : edKeypairBytes.length = 64

/-- Modelled from the spec: `StringToKey::new_default` draws a fresh random
salt from the random source. -/
def StringToKey.new_default (rng : Rng) : StringToKey := { salt := rng.s2kSalt }

/-- Modelled from the spec: the external "encrypt secret fields under a
passphrase" capability (`PlainSecretParams::encrypt`). Kept symbolic: the
resulting `EncryptedSecretParams` records the arguments of the call. -/
def PlainSecretParams.encrypt (plain : PlainSecretParams) (rng : Rng) (passphrase : String)
    (alg : SymmetricKeyAlgorithm) (s2k : StringToKey) (version : KeyVersion) (id : Nat) :
    Except String EncryptedSecretParams :=
  .ok { plain := plain, passphrase := passphrase, alg := alg, s2k := s2k,
        version := version, id := id }

/-- `KeyType::generate_rsa_key`. -/
def KeyType.generate_rsa_key (rng : Rng) (bit_size : Nat) :
    Outcome (PublicParams × PlainSecretParams) := do
  let key ← Outcome.liftE (rng.rsaNew bit_size)
  let u ← Outcome.expectSome (modInverse key.p key.q) "invalid prime"
  Outcome.ok (PublicParams.RSA key.n key.e, PlainSecretParams.RSA key.d key.p key.q u)

/-- `KeyType::generate_ecdh_key`: fixed curve25519; public value is the
33-byte `0x40`-tagged point, secret value is the 32-byte scalar reversed;
hash and symmetric algorithm are fixed to SHA-256 and AES-128. -/
def KeyType.generate_ecdh_key (rng : Rng) : PublicParams × PlainSecretParams :=
  let p := 0x40 :: rng.x25519Public
  let q := rng.x25519Secret.reverse
  (PublicParams.ECDH ECCCurve.Curve25519 p HashAlgorithm.SHA256 SymmetricKeyAlgorithm.AES128,
   PlainSecretParams.ECDH q)

/-- `KeyType::generate_eddsa_key`: fixed ed25519; the 64-byte keypair buffer
is seed (first 32 bytes) followed by the public point (last 32 bytes). -/
def KeyType.generate_eddsa_key (rng : Rng) : PublicParams × PlainSecretParams :=
  let bytes := rng.edKeypairBytes
  let q := 0x40 :: bytes.drop 32
  let p := bytes.take 32
  (PublicParams.EdDSA ECCCurve.Ed25519 q, PlainSecretParams.EdDSA p)

/-- The algorithm dispatch inside `KeyType::generate`: raw public/secret
material for the selected algorithm. -/
def KeyType.raw_material (kt : KeyType) (rng : Rng) :
    Outcome (PublicParams × PlainSecretParams) :=
  match kt with
  | KeyType.Rsa bit_size => KeyType.generate_rsa_key rng bit_size
  | KeyType.ECDH => Outcome.ok (KeyType.generate_ecdh_key rng)
  | KeyType.EdDSA => Outcome.ok (KeyType.generate_eddsa_key rng)

/-- `KeyType::generate`: generate raw material, then protect the secret
fields — `Plain` when no passphrase is given, otherwise encrypted under
AES-256 with a freshly salted S2K and checksum-kind id 254. -/
def KeyType.generate (kt : KeyType) (rng : Rng) (passphrase : Option String) :
    Outcome (PublicParams × SecretParams) := do
  let pair ← kt.raw_material rng
  match passphrase with
  | some pass =>
    let s2k := StringToKey.new_default rng
    let alg := SymmetricKeyAlgorithm.AES256
    let id := 254
    let version := keyVersionDefault
    let enc ← Outcome.liftE (pair.2.encrypt rng pass alg s2k version id)
    Outcome.ok (pair.1, SecretParams.Encrypted enc)
  | none => Outcome.ok (pair.1, SecretParams.Plain pair.2)

/-- `packet::PublicKey`. -/
structure PublicKeyPacket where
  packet_version : Version
  version : KeyVersion
  algorithm : PublicKeyAlgorithm
  created_at : DateTime
  expiration : Option Nat
  public_params : PublicParams
deriving DecidableEq, Inhabited

/-- `packet::PublicSubkey`. -/
structure PublicSubkeyPacket where
  packet_version : Version
  version : KeyVersion
  algorithm : PublicKeyAlgorithm
  created_at : DateTime
  expiration : Option Nat
  public_params : PublicParams
deriving DecidableEq, Inhabited

/-- `packet::SecretKey`. -/
structure SecretKeyPacket where
  details : PublicKeyPacket
  secret_params : SecretParams
deriving DecidableEq, Inhabited

/-- `packet::SecretSubkey`. -/
structure SecretSubkeyPacket where
  details : PublicSubkeyPacket
  secret_params : SecretParams
deriving DecidableEq, Inhabited

/-- `KeyDetails` from `src/key.rs`. -/
structure KeyDetails where
  primary_user_id : UserId
  user_ids : List UserId
  user_attributes : List UserAttribute
  keyflags : KeyFlags
  preferred_symmetric_algorithms : List SymmetricKeyAlgorithm
  preferred_hash_algorithms : List HashAlgorithm
  preferred_compression_algorithms : List CompressionAlgorithm
  revocation_key : Option RevocationKey
deriving DecidableEq, Inhabited

/-- `PublicSubkey` (user-facing, unsigned). -/
structure PublicSubkey where
  key : PublicSubkeyPacket
  keyflags : KeyFlags
deriving DecidableEq, Inhabited

/-- `SecretSubkey` (user-facing, unsigned). -/
structure SecretSubkey where
  key : SecretSubkeyPacket
  keyflags : KeyFlags
deriving DecidableEq, Inhabited

/-- `SecretKey` (user-facing, unsigned). -/
structure SecretKey where
  primary_key : SecretKeyPacket
  details : KeyDetails
  public_subkeys : List PublicSubkey
  secret_subkeys : List SecretSubkey
deriving DecidableEq, Inhabited

/-- `SubkeyParams` (finalized subkey configuration). -/
structure SubkeyParams where
  key_type : KeyType
  can_sign : Bool
  can_create_certificates : Bool
  can_encrypt : Bool
  user_ids : List UserId
  user_attributes : List UserAttribute
  passphrase : Option String
  created_at : DateTime
  packet_version : Version
  version : KeyVersion
  expiration : Option Duration
deriving DecidableEq, Inhabited

/-- `SecretKeyParams` (finalized primary-key configuration). -/
structure SecretKeyParams where
  key_type : KeyType
  can_sign : Bool
  can_create_certificates : Bool
  can_encrypt : Bool
  preferred_symmetric_algorithms : List SymmetricKeyAlgorithm
  preferred_hash_algorithms : List HashAlgorithm
  preferred_compression_algorithms : List CompressionAlgorithm
  revocation_key : Option RevocationKey
  primary_user_id : String
  user_ids : List String
  user_attributes : List UserAttribute
  passphrase : Option String
  created_at : DateTime
  packet_version : Version
  version : KeyVersion
  expiration : Option Duration
  subkeys : List SubkeyParams
deriving DecidableEq, Inhabited

/-- `SecretKeyParamsBuilder` (derive_builder): every field optional until
finalization. -/
structure SecretKeyParamsBuilder where
  key_type : Option KeyType := none
  can_sign : Option Bool := none
  can_create_certificates : Option Bool := none
  can_encrypt : Option Bool := none
  preferred_symmetric_algorithms : Option (List SymmetricKeyAlgorithm) := none
  preferred_hash_algorithms : Option (List HashAlgorithm) := none
  preferred_compression_algorithms : Option (List CompressionAlgorithm) := none
  revocation_key : Option (Option RevocationKey) := none
  primary_user_id : Option String := none
  user_ids : Option (List String) := none
  user_attributes : Option (List UserAttribute) := none
  passphrase : Option (Option String) := none
  created_at : Option DateTime := none
  packet_version : Option Version := none
  version : Option KeyVersion := none
  expiration : Option (Option Duration) := none
  subkeys : Option (List SubkeyParams) := none
deriving DecidableEq, Inhabited

/-- `SubkeyParamsBuilder` (derive_builder). -/
structure SubkeyParamsBuilder where
  key_type : Option KeyType := none
  can_sign : Option Bool := none
  can_create_certificates : Option Bool := none
  can_encrypt : Option Bool := none
  user_ids : Option (List UserId) := none
  user_attributes : Option (List UserAttribute) := none
  passphrase : Option (Option String) := none
  created_at : Option DateTime := none
  packet_version : Option Version := none
  version : Option KeyVersion := none
  expiration : Option (Option Duration) := none
deriving DecidableEq, Inhabited

/-- `SecretKeyParamsBuilder::validate` from `src/key.rs`: reject RSA below
2048 bits, EdDSA with encrypt capability, ECDH with sign capability. -/
def SecretKeyParamsBuilder.validate (b : SecretKeyParamsBuilder) : Except String Unit :=
  match b.key_type with
  | some (KeyType.Rsa size) =>
    if size < 2048 then
      Except.error "Keys with less than 2048bits are considered insecure"
    else
      Except.ok ()
  | some KeyType.EdDSA =>
    match b.can_encrypt with
    | some true => Except.error "EdDSA can only be used for signing keys"
    | _ => Except.ok ()
  | some KeyType.ECDH =>
    match b.can_sign with
    | some true => Except.error "ECDH can only be used for encryption keys"
    | _ => Except.ok ()
  | _ => Except.ok ()

/-- Modelled from the spec: derive_builder's generated
`SecretKeyParamsBuilder::build` — run `validate` first (finalization-time
validation, before any key material exists), then extract each field,
substituting the declared default for absent optional fields and failing for
absent required fields (`key_type`, `primary_user_id`). The `created_at`
default (`chrono::Utc::now()`) is the `now` argument. -/
def SecretKeyParamsBuilder.build (b : SecretKeyParamsBuilder) (now : DateTime) :
    Except String SecretKeyParams := do
  let _ ← b.validate
  match b.key_type, b.primary_user_id with
  | some key_type, some primary_user_id =>
    Except.ok
      { key_type := key_type
        can_sign := b.can_sign.getD false
        can_create_certificates := b.can_create_certificates.getD false
        can_encrypt := b.can_encrypt.getD false
        preferred_symmetric_algorithms := b.preferred_symmetric_algorithms.getD []
        preferred_hash_algorithms := b.preferred_hash_algorithms.getD []
        preferred_compression_algorithms := b.preferred_compression_algorithms.getD []
        revocation_key := b.revocation_key.getD none
        primary_user_id := primary_user_id
        user_ids := b.user_ids.getD []
        user_attributes := b.user_attributes.getD []
        passphrase := b.passphrase.getD none
        created_at := b.created_at.getD now
        packet_version := b.packet_version.getD versionDefault
        version := b.version.getD keyVersionDefault
        expiration := b.expiration.getD none
        subkeys := b.subkeys.getD [] }
  | none, _ => Except.error "key_type must be initialized"
  | _, none => Except.error "primary_user_id must be initialized"

/-- Modelled from the spec: derive_builder's generated
`SubkeyParamsBuilder::build`. `SubkeyParams` declares no `validate` hook in
`src/key.rs`, so finalization only extracts fields (failing for an absent
`key_type`, the sole required field). -/
def SubkeyParamsBuilder.build (b : SubkeyParamsBuilder) (now : DateTime) :
    Except String SubkeyParams :=
  match b.key_type with
  | some key_type =>
    Except.ok
      { key_type := key_type
        can_sign := b.can_sign.getD false
        can_create_certificates := b.can_create_certificates.getD false
        can_encrypt := b.can_encrypt.getD false
        user_ids := b.user_ids.getD []
        user_attributes := b.user_attributes.getD []
        passphrase := b.passphrase.getD none
        created_at := b.created_at.getD now
        packet_version := b.packet_version.getD versionDefault
        version := b.version.getD keyVersionDefault
        expiration := b.expiration.getD none }
  | none => Except.error "key_type must be initialized"

/-- `SecretKeyParams::generate`: generate primary material, assemble the
packet (expiration truncated to u16), derive key flags from the capability
booleans, build `KeyDetails`, then generate each subkey in configuration
order. `rngs i` is the fresh OS random source acquired by the i-th
`KeyType::generate` call (0 = primary, i+1 = i-th subkey). -/
def SecretKeyParams.generate (p : SecretKeyParams) (rngs : Nat → Rng) : Outcome SecretKey := do
  let pair ← p.key_type.generate (rngs 0) p.passphrase
  let primary_key : SecretKeyPacket :=
    { details :=
        { packet_version := p.packet_version
          version := p.version
          algorithm := p.key_type.to_alg
          created_at := p.created_at
          expiration := p.expiration.map (fun v => v % 65536)
          public_params := pair.1 }
      secret_params := pair.2 }
  let keyflags :=
    ((((KeyFlags.default).set_certify p.can_create_certificates).set_encrypt_comms
        p.can_encrypt).set_encrypt_storage p.can_encrypt).set_sign p.can_sign
  let secret_subkeys ← collectOutcomeIdx
    (fun i subkey => do
      let sub_pair ← subkey.key_type.generate (rngs (i + 1)) subkey.passphrase
      let sub_flags :=
        ((((KeyFlags.default).set_certify subkey.can_create_certificates).set_encrypt_comms
            subkey.can_encrypt).set_encrypt_storage subkey.can_encrypt).set_sign subkey.can_sign
      Outcome.ok
        { key :=
            { details :=
                { packet_version := subkey.packet_version
                  version := subkey.version
                  algorithm := subkey.key_type.to_alg
                  created_at := subkey.created_at
                  expiration := subkey.expiration.map (fun v => v % 65536)
                  public_params := sub_pair.1 }
              secret_params := sub_pair.2 }
          keyflags := sub_flags })
    0 p.subkeys
  Outcome.ok
    { primary_key := primary_key
      details :=
        { primary_user_id := UserId.from_str versionDefault p.primary_user_id
          user_ids := p.user_ids.map (fun m => UserId.from_str versionDefault m)
          user_attributes := p.user_attributes
          keyflags := keyflags
          preferred_symmetric_algorithms := p.preferred_symmetric_algorithms
          preferred_hash_algorithms := p.preferred_hash_algorithms
          preferred_compression_algorithms := p.preferred_compression_algorithms
          revocation_key := p.revocation_key }
      public_subkeys := []
      secret_subkeys := secret_subkeys }

/-- `packet::SignatureType`, restricted to the types this core emits. -/
inductive SignatureType where
  | CertGeneric
  | SubkeyBinding
deriving DecidableEq, Inhabited

/-- `packet::Subpacket`, restricted to the subpackets this core emits. -/
inductive Subpacket where
  | IsPrimary (b : Bool)
  | SignatureCreationTime (t : DateTime)
  | KeyFlags (flags : List Byte)
  | PreferredSymmetricAlgorithms (algs : List SymmetricKeyAlgorithm)
  | PreferredHashAlgorithms (algs : List HashAlgorithm)
  | PreferredCompressionAlgorithms (algs : List CompressionAlgorithm)
  | RevocationKey (r : RevocationKey)
  | Issuer (k : KeyId)
  | IssuerFingerprint (f : Fingerprint)
deriving DecidableEq, Inhabited

/-- The signature configuration assembled through `SignatureConfigBuilder`:
signature type, public-key algorithm, hashed and unhashed subpackets. -/
structure SignatureConfig where
  typ : SignatureType
  pub_alg : PublicKeyAlgorithm
  hashed_subpackets : List Subpacket
  unhashed_subpackets : List Subpacket
deriving DecidableEq, Inhabited

/-- A produced signature: its configuration (which the packet layer embeds in
the signature packet) plus the externally computed signature bytes. -/
structure Signature where
  config : SignatureConfig
  bytes : List Byte
deriving DecidableEq, Inhabited

/-- A user id together with its certification signature(s)
(`UserId::into_signed`). -/
structure SignedUser where
  id : UserId
  signatures : List Signature
deriving DecidableEq, Inhabited

/-- A user attribute together with its signature(s). -/
structure SignedUserAttribute where
  attr : UserAttribute
  signatures : List Signature
deriving DecidableEq, Inhabited

/-- `composed::SignedKeyDetails`. -/
structure SignedKeyDetails where
  revocation_signatures : List Signature
  direct_signatures : List Signature
  users : List SignedUser
  user_attributes : List SignedUserAttribute
deriving DecidableEq, Inhabited

/-- `composed::SignedPublicSubKey`. -/
structure SignedPublicSubKey where
  key : PublicSubkeyPacket
  signatures : List Signature
deriving DecidableEq, Inhabited

/-- `composed::SignedSecretSubKey`. -/
structure SignedSecretSubKey where
  key : SecretSubkeyPacket
  signatures : List Signature
deriving DecidableEq, Inhabited

/-- `composed::SignedSecretKey`. -/
structure SignedSecretKey where
  primary_key : SecretKeyPacket
  details : SignedKeyDetails
  public_subkeys : List SignedPublicSubKey
  secret_subkeys : List SignedSecretSubKey
deriving DecidableEq, Inhabited

/-- The view of a signing key through the `SecretKeyTrait` interface: its
public-key algorithm, its (optionally derivable) key id, and its
fingerprint. -/
structure SignerKey where
  algorithm : PublicKeyAlgorithm
  key_id : Option KeyId
  fingerprint : Fingerprint
deriving DecidableEq, Inhabited

/-- Modelled from the spec: the external collaborators the self-certification
engine consumes — the clock, the "derive key id / fingerprint from public
key" capability, and the low-level hash-then-sign primitives
(`SignatureConfig::sign_certificate`, `::sign_key`, `::sign_key_binding`,
and `UserAttribute::sign`), each keyed by the passphrase callback's value and
allowed to fail recoverably. -/
structure SignEnv where
  now : DateTime
  keyIdOf : PublicKeyPacket → Option KeyId
  fingerprintOf : PublicKeyPacket → Fingerprint
  sign_certificate : SignatureConfig → String → Nat → UserId → Except String (List Byte)
  sign_key : SignatureConfig → String → PublicSubkeyPacket → Except String (List Byte)
  sign_key_binding : SignatureConfig → String → SecretSubkeyPacket → Except String (List Byte)
  sign_attr : SignerKey → String → UserAttribute → Except String (List Signature)

/-- The `SecretKeyTrait` implementation of `packet::SecretKey`: algorithm
from the packet, key id and fingerprint via the external derivation
capability. -/
def SecretKeyPacket.signerKey (env : SignEnv) (k : SecretKeyPacket) : SignerKey :=
  { algorithm := k.details.algorithm
    key_id := env.keyIdOf k.details
    fingerprint := env.fingerprintOf k.details }

/-- The signature configuration built for the primary-user-id self-signature
in `KeyDetails::sign`: generic certification; hashed subpackets are
is-primary, creation time, key flags, the three preference lists, and the
revocation key when one is set; unhashed subpackets are the signer's issuer
key id and issuer fingerprint. -/
def primaryUserIdCertConfig (env : SignEnv) (d : KeyDetails) (key : SignerKey)
    (kid : KeyId) : SignatureConfig :=
  { typ := SignatureType.CertGeneric
    pub_alg := key.algorithm
    hashed_subpackets :=
      [Subpacket.IsPrimary true,
       Subpacket.SignatureCreationTime env.now,
       Subpacket.KeyFlags d.keyflags.toBytes,
       Subpacket.PreferredSymmetricAlgorithms d.preferred_symmetric_algorithms,
       Subpacket.PreferredHashAlgorithms d.preferred_hash_algorithms,
       Subpacket.PreferredCompressionAlgorithms d.preferred_compression_algorithms] ++
      (match d.revocation_key with
       | some r => [Subpacket.RevocationKey r]
       | none => [])
    unhashed_subpackets := [Subpacket.Issuer kid, Subpacket.IssuerFingerprint key.fingerprint] }

/-- The signature configuration built for each additional user id in
`KeyDetails::sign`: as `primaryUserIdCertConfig` but with neither the
is-primary subpacket nor the revocation-key subpacket. -/
def additionalUserIdCertConfig (env : SignEnv) (d : KeyDetails) (key : SignerKey)
    (kid : KeyId) : SignatureConfig :=
  { typ := SignatureType.CertGeneric
    pub_alg := key.algorithm
    hashed_subpackets :=
      [Subpacket.SignatureCreationTime env.now,
       Subpacket.KeyFlags d.keyflags.toBytes,
       Subpacket.PreferredSymmetricAlgorithms d.preferred_symmetric_algorithms,
       Subpacket.PreferredHashAlgorithms d.preferred_hash_algorithms,
       Subpacket.PreferredCompressionAlgorithms d.preferred_compression_algorithms]
    unhashed_subpackets := [Subpacket.Issuer kid, Subpacket.IssuerFingerprint key.fingerprint] }

/-- The signature configuration built for a subkey binding signature
(`PublicSubkey::sign` and `SecretSubkey::sign`): subkey binding type; hashed
subpackets are creation time and the subkey's key flags; unhashed subpackets
are the primary key's issuer key id and issuer fingerprint. -/
def subkeyBindingConfig (env : SignEnv) (flags : KeyFlags) (key : SignerKey)
    (kid : KeyId) : SignatureConfig :=
  { typ := SignatureType.SubkeyBinding
    pub_alg := key.algorithm
    hashed_subpackets :=
      [Subpacket.SignatureCreationTime env.now, Subpacket.KeyFlags flags.toBytes]
    unhashed_subpackets := [Subpacket.Issuer kid, Subpacket.IssuerFingerprint key.fingerprint] }

/-- `KeyDetails::sign`: certify the primary user id (is-primary signature
first), then every additional user id in list order, then every user
attribute in list order. The signer's key id is obtained with
`expect("missing key id")` — a missing id aborts. -/
def KeyDetails.sign (env : SignEnv) (d : KeyDetails) (key : SignerKey) (key_pw : String) :
    Outcome SignedKeyDetails := do
  let id := d.primary_user_id
  let kid ← Outcome.expectSome key.key_id "missing key id"
  let config := primaryUserIdCertConfig env d key kid
  let sig_bytes ← Outcome.liftE (env.sign_certificate config key_pw id.tag id)
  let primary_user : SignedUser := { id := id, signatures := [{ config := config, bytes := sig_bytes }] }
  let other_users ← collectOutcome
    (fun uid => do
      let kid2 ← Outcome.expectSome key.key_id "missing key id"
      let config2 := additionalUserIdCertConfig env d key kid2
      let sb ← Outcome.liftE (env.sign_certificate config2 key_pw uid.tag uid)
      Outcome.ok ({ id := uid, signatures := [{ config := config2, bytes := sb }] } : SignedUser))
    d.user_ids
  let user_attributes ← collectOutcome
    (fun u => do
      let sigs ← Outcome.liftE (env.sign_attr key key_pw u)
      Outcome.ok ({ attr := u, signatures := sigs } : SignedUserAttribute))
    d.user_attributes
  Outcome.ok
    { revocation_signatures := []
      direct_signatures := []
      users := primary_user :: other_users
      user_attributes := user_attributes }

/-- `PublicSubkey::sign`: one binding signature over the public subkey
packet, via `SignatureConfig::sign_key`. -/
def PublicSubkey.sign (env : SignEnv) (s : PublicSubkey) (sec_key : SignerKey)
    (key_pw : String) : Outcome SignedPublicSubKey := do
  let key := s.key
  let kid ← Outcome.expectSome sec_key.key_id "missing key id"
  let config := subkeyBindingConfig env s.keyflags sec_key kid
  let sig_bytes ← Outcome.liftE (env.sign_key config key_pw key)
  Outcome.ok { key := key, signatures := [{ config := config, bytes := sig_bytes }] }

/-- `SecretSubkey::sign`: one binding signature over the secret subkey
packet, via the distinct routine `SignatureConfig::sign_key_binding`. -/
def SecretSubkey.sign (env : SignEnv) (s : SecretSubkey) (sec_key : SignerKey)
    (key_pw : String) : Outcome SignedSecretSubKey := do
  let key := s.key
  let kid ← Outcome.expectSome sec_key.key_id "missing key id"
  let config := subkeyBindingConfig env s.keyflags sec_key kid
  let sig_bytes ← Outcome.liftE (env.sign_key_binding config key_pw key)
  Outcome.ok { key := key, signatures := [{ config := config, bytes := sig_bytes }] }

/-- `SecretKey::sign`: self-certify with the embedded primary secret key —
details first, then each public subkey in list order, then each secret
subkey in list order. -/
def SecretKey.sign (env : SignEnv) (sk : SecretKey) (key_pw : String) :
    Outcome SignedSecretKey := do
  let primary_key := sk.primary_key
  let signer := primary_key.signerKey env
  let details ← sk.details.sign env signer key_pw
  let public_subkeys ← collectOutcome (fun k => k.sign env signer key_pw) sk.public_subkeys
  let secret_subkeys ← collectOutcome (fun k => k.sign env signer key_pw) sk.secret_subkeys
  Outcome.ok
    { primary_key := primary_key
      details := details
      public_subkeys := public_subkeys
      secret_subkeys := secret_subkeys }

/-- The subjects of the signatures attached to a signed secret key, in the
order they appear in the structure: certified users, then user attributes,
then public subkeys, then secret subkeys. -/
inductive SigSubject where
  | user (u : UserId)
  | attr (a : UserAttribute)
  | pubSub (k : PublicSubkeyPacket)
  | secSub (k : SecretSubkeyPacket)
deriving DecidableEq, Inhabited

def SignedSecretKey.signatureSubjects (r : SignedSecretKey) : List SigSubject :=
  r.details.users.map (fun u => SigSubject.user u.id) ++
  r.details.user_attributes.map (fun a => SigSubject.attr a.attr) ++
  r.public_subkeys.map (fun k => SigSubject.pubSub k.key) ++
  r.secret_subkeys.map (fun k => SigSubject.secSub k.key)

/-- The three hard incompatibilities rejected by primary-key builder
validation: RSA below 2048 bits, EdDSA with encrypt capability set to true,
ECDH with sign capability set to true. -/
def hardIncompatibility (kt : KeyType) (can_sign can_encrypt : Option Bool) : Bool :=
  match kt with
  | .Rsa size => decide (size < 2048)
  | .EdDSA => decide (can_encrypt = some true)
  | .ECDH => decide (can_sign = some true)

/-! Concrete sample values used to instantiate the theorems below. -/

def rng0 : Rng :=
  { rsaNew := fun _ => Except.error "rsa generation unavailable"
    x25519Secret := List.replicate 32 3
    x25519Public := List.replicate 32 1
    edKeypairBytes := List.replicate 64 2
    s2kSalt := [9, 9]
    x25519SecretLen := by simp
    x25519PublicLen := by simp
    edKeypairLen := by simp }

def rngs0 : Nat → Rng := fun _ => rng0

def env0 : SignEnv :=
  { now := 1000
    keyIdOf := fun _ => some 7
    fingerprintOf := fun _ => [1, 2]
    sign_certificate := fun _ _ _ _ => Except.ok [5]
    sign_key := fun _ _ _ => Except.ok [6]
    sign_key_binding := fun _ _ _ => Except.ok [7]
    sign_attr := fun _ _ _ => Except.ok [] }

def key0 : SignerKey :=
  { algorithm := PublicKeyAlgorithm.EdDSA, key_id := some 7, fingerprint := [1, 2] }

def keyNoId : SignerKey :=
  { algorithm := PublicKeyAlgorithm.EdDSA, key_id := none, fingerprint := [1, 2] }

def c1Builder : SecretKeyParamsBuilder :=
  { key_type := some (KeyType.Rsa 1024), primary_user_id := some "Me <me@mail.com>" }

def c2SubkeyBuilder : SubkeyParamsBuilder :=
  { key_type := some KeyType.EdDSA, can_encrypt := some true }

def c2SubkeyBuilderECDH : SubkeyParamsBuilder :=
  { key_type := some KeyType.ECDH, can_sign := some true }

def eddsaPub0 : PublicParams :=
  PublicParams.EdDSA ECCCurve.Ed25519 (0x40 :: List.replicate 32 2)

def eddsaPlain0 : PlainSecretParams := PlainSecretParams.EdDSA (List.replicate 32 2)

def d5 : KeyDetails :=
  { primary_user_id := UserId.from_str 0 "Alice"
    user_ids := [UserId.from_str 0 "Bob"]
    user_attributes := []
    keyflags := { certify := true, sign := true }
    preferred_symmetric_algorithms := [SymmetricKeyAlgorithm.AES256]
    preferred_hash_algorithms := [HashAlgorithm.SHA256]
    preferred_compression_algorithms := [CompressionAlgorithm.ZLIB]
    revocation_key := some { code := 5 } }

def c5r : SignedKeyDetails := (KeyDetails.sign env0 d5 key0 "pw").getD default

def d3 : KeyDetails :=
  { primary_user_id := UserId.from_str 0 "Alice"
    user_ids := [UserId.from_str 0 "Bob", UserId.from_str 0 "Carol"]
    user_attributes := [{ attr := 1 }]
    keyflags := { certify := true, sign := true }
    preferred_symmetric_algorithms := []
    preferred_hash_algorithms := []
    preferred_compression_algorithms := []
    revocation_key := none }

def pubSub0 : PublicSubkey :=
  { key :=
      { packet_version := 0, version := 4, algorithm := PublicKeyAlgorithm.ECDH,
        created_at := 100, expiration := none,
        public_params := PublicParams.ECDH ECCCurve.Curve25519 (0x40 :: List.replicate 32 1)
          HashAlgorithm.SHA256 SymmetricKeyAlgorithm.AES128 }
    keyflags := { encrypt_comms := true, encrypt_storage := true } }

def secSub0 : SecretSubkey :=
  { key :=
      { details :=
          { packet_version := 0, version := 4, algorithm := PublicKeyAlgorithm.ECDH,
            created_at := 100, expiration := none,
            public_params := PublicParams.ECDH ECCCurve.Curve25519 (0x40 :: List.replicate 32 1)
              HashAlgorithm.SHA256 SymmetricKeyAlgorithm.AES128 }
        secret_params := SecretParams.Plain (PlainSecretParams.ECDH (List.replicate 32 3)) }
    keyflags := { encrypt_comms := true, encrypt_storage := true } }

def sk3 : SecretKey :=
  { primary_key :=
      { details :=
          { packet_version := 0, version := 4, algorithm := PublicKeyAlgorithm.EdDSA,
            created_at := 100, expiration := none,
            public_params := PublicParams.EdDSA ECCCurve.Ed25519 (0x40 :: List.replicate 32 2) }
        secret_params := SecretParams.Plain (PlainSecretParams.EdDSA (List.replicate 32 2)) }
    details := d3
    public_subkeys := [pubSub0]
    secret_subkeys := [secSub0] }

def r3 : SignedSecretKey := (SecretKey.sign env0 sk3 "pw").getD default

def subkeyParams0 : SubkeyParams :=
  { key_type := KeyType.ECDH, can_sign := false, can_create_certificates := false,
    can_encrypt := true, user_ids := [], user_attributes := [], passphrase := none,
    created_at := 50, packet_version := 0, version := 4, expiration := some 70000 }

def p0 : SecretKeyParams :=
  { key_type := KeyType.EdDSA, can_sign := true, can_create_certificates := true,
    can_encrypt := false,
    preferred_symmetric_algorithms := [SymmetricKeyAlgorithm.AES256]
    preferred_hash_algorithms := [HashAlgorithm.SHA256]
    preferred_compression_algorithms := [CompressionAlgorithm.ZLIB]
    revocation_key := none
    primary_user_id := "Me"
    user_ids := []
    user_attributes := []
    passphrase := none
    created_at := 42
    packet_version := 0
    version := 4
    expiration := some 70000
    subkeys := [subkeyParams0] }

def sk0 : SecretKey := (p0.generate rngs0).getD default

/-! Helper lemmas about `Outcome` and the collection combinators. -/

@[simp] theorem Outcome.ok_bind {α β : Type} (a : α) (f : α → Outcome β) :
    (Outcome.ok a >>= f) = f a := rfl

@[simp] theorem Outcome.error_bind {α β : Type} (e : String) (f : α → Outcome β) :
    ((Outcome.error e : Outcome α) >>= f) = Outcome.error e := rfl

@[simp] theorem Outcome.panic_bind {α β : Type} (m : String) (f : α → Outcome β) :
    ((Outcome.panic m : Outcome α) >>= f) = Outcome.panic m := rfl

@[simp] theorem Outcome.pure_eq_ok {α : Type} (a : α) : (pure a : Outcome α) = Outcome.ok a := rfl

theorem Outcome.bind_ok_iff {α β : Type} {x : Outcome α} {f : α → Outcome β} {b : β} :
    x >>= f = Outcome.ok b ↔ ∃ a, x = Outcome.ok a ∧ f a = Outcome.ok b := by
  cases x <;> simp [Bind.bind, Outcome.bind]

@[simp] theorem Outcome.isPanic_ok {α : Type} (a : α) : (Outcome.ok a).isPanic = false := rfl

@[simp] theorem Outcome.isPanic_error {α : Type} (e : String) :
    (Outcome.error e : Outcome α).isPanic = false := rfl

@[simp] theorem Outcome.isPanic_panic {α : Type} (m : String) :
    (Outcome.panic m : Outcome α).isPanic = true := rfl

@[simp] theorem Outcome.isPanic_liftE {α : Type} (e : Except String α) :
    (Outcome.liftE e).isPanic = false := by cases e <;> rfl

theorem Outcome.isPanic_bind {α β : Type} {x : Outcome α} {f : α → Outcome β}
    (hx : x.isPanic = false) (hf : ∀ a, (f a).isPanic = false) :
    (x >>= f).isPanic = false := by
  cases x <;> simp_all [Bind.bind, Outcome.bind]

theorem collectOutcome_ok_map {α β γ : Type} {f : α → Outcome β} {g : β → γ} {h : α → γ}
    (H : ∀ a b, f a = Outcome.ok b → g b = h a) :
    ∀ {l : List α} {r : List β}, collectOutcome f l = Outcome.ok r → r.map g = l.map h := by
  intro l
  induction l with
  | nil =>
    intro r hr
    simp only [collectOutcome] at hr
    cases hr
    simp
  | cons a as ih =>
    intro r hr
    simp only [collectOutcome] at hr
    split at hr
    · cases hr
    · cases hr
    · rename_i b hfa
      split at hr
      · cases hr
      · cases hr
      · rename_i bs hbs
        cases hr
        simp [ih hbs, H a b hfa]

theorem collectOutcome_isPanic {α β : Type} {f : α → Outcome β}
    (H : ∀ a, (f a).isPanic = false) : ∀ l : List α, (collectOutcome f l).isPanic = false := by
  intro l
  induction l with
  | nil => rfl
  | cons a as ih =>
    simp only [collectOutcome]
    split
    · rename_i m hfa
      have hH := H a
      rw [hfa] at hH
      cases hH
    · rfl
    · split
      · rename_i m hbs
        rw [hbs] at ih
        cases ih
      · rfl
      · rfl

theorem collectOutcomeIdx_ok_map {α β γ : Type} {f : Nat → α → Outcome β} {g : β → γ}
    {h : α → γ} (H : ∀ i a b, f i a = Outcome.ok b → g b = h a) :
    ∀ {l : List α} {i : Nat} {r : List β},
      collectOutcomeIdx f i l = Outcome.ok r → r.map g = l.map h := by
  intro l
  induction l with
  | nil =>
    intro i r hr
    simp only [collectOutcomeIdx] at hr
    cases hr
    simp
  | cons a as ih =>
    intro i r hr
    simp only [collectOutcomeIdx] at hr
    split at hr
    · cases hr
    · cases hr
    · rename_i b hfa
      split at hr
      · cases hr
      · cases hr
      · rename_i bs hbs
        cases hr
        simp [ih hbs, H i a b hfa]

@[simp] theorem exceptOk_bind_ok {ε α β : Type} (a : α) (f : α → Except ε β) :
    (Except.ok a >>= f) = f a := rfl

@[simp] theorem exceptOk_bind_error {ε α β : Type} (e : ε) (f : α → Except ε β) :
    ((Except.error e : Except ε α) >>= f) = Except.error e := rfl

/-- Structure of a successful `KeyDetails::sign`: the signed users are the
primary user id followed by the additional user ids in order, each carrying
exactly one signature, and the signed attributes are the original attributes
in order. -/
theorem keyDetails_sign_shape {env : SignEnv} {d : KeyDetails} {key : SignerKey}
    {pw : String} {r : SignedKeyDetails}
    (h : KeyDetails.sign env d key pw = Outcome.ok r) :
    r.users.map SignedUser.id = d.primary_user_id :: d.user_ids ∧
    r.users.map (fun u => u.signatures.length) =
      (d.primary_user_id :: d.user_ids).map (fun _ => 1) ∧
    r.user_attributes.map SignedUserAttribute.attr = d.user_attributes := by
  simp only [KeyDetails.sign] at h
  obtain ⟨kid, hkid, h⟩ := Outcome.bind_ok_iff.mp h
  obtain ⟨sb, hsb, h⟩ := Outcome.bind_ok_iff.mp h
  obtain ⟨others, hothers, h⟩ := Outcome.bind_ok_iff.mp h
  obtain ⟨attrs, hattrs, h⟩ := Outcome.bind_ok_iff.mp h
  injection h with h
  subst h
  have hids : others.map SignedUser.id = d.user_ids.map (fun uid => uid) := by
    refine collectOutcome_ok_map ?_ hothers
    intro uid su hsu
    obtain ⟨kid2, hkid2, hsu⟩ := Outcome.bind_ok_iff.mp hsu
    obtain ⟨sb2, hsb2, hsu⟩ := Outcome.bind_ok_iff.mp hsu
    injection hsu with hsu
    subst hsu
    rfl
  have hlens : others.map (fun u => u.signatures.length) = d.user_ids.map (fun _ => 1) := by
    refine collectOutcome_ok_map ?_ hothers
    intro uid su hsu
    obtain ⟨kid2, hkid2, hsu⟩ := Outcome.bind_ok_iff.mp hsu
    obtain ⟨sb2, hsb2, hsu⟩ := Outcome.bind_ok_iff.mp hsu
    injection hsu with hsu
    subst hsu
    rfl
  have hattr : attrs.map SignedUserAttribute.attr = d.user_attributes.map (fun a => a) := by
    refine collectOutcome_ok_map ?_ hattrs
    intro u sa hsa
    obtain ⟨sigs, hsigs, hsa⟩ := Outcome.bind_ok_iff.mp hsa
    injection hsa with hsa
    subst hsa
    rfl
  refine ⟨?_, ?_, ?_⟩
  · simpa using congrArg (List.cons d.primary_user_id) hids
  · simpa using congrArg (List.cons 1) hlens
  · simpa using hattr

/-- Structure of a successful `PublicSubkey::sign`: the packet is preserved
and exactly one binding signature is attached. -/
theorem publicSubkey_sign_shape {env : SignEnv} {s : PublicSubkey} {sec_key : SignerKey}
    {pw : String} {r : SignedPublicSubKey}
    (h : PublicSubkey.sign env s sec_key pw = Outcome.ok r) :
    r.key = s.key ∧ r.signatures.length = 1 := by
  simp only [PublicSubkey.sign] at h
  obtain ⟨kid, hkid, h⟩ := Outcome.bind_ok_iff.mp h
  obtain ⟨sb, hsb, h⟩ := Outcome.bind_ok_iff.mp h
  injection h with h
  subst h
  exact ⟨rfl, rfl⟩

/-- Structure of a successful `SecretSubkey::sign`: the packet is preserved
and exactly one binding signature is attached. -/
theorem secretSubkey_sign_shape {env : SignEnv} {s : SecretSubkey} {sec_key : SignerKey}
    {pw : String} {r : SignedSecretSubKey}
    (h : SecretSubkey.sign env s sec_key pw = Outcome.ok r) :
    r.key = s.key ∧ r.signatures.length = 1 := by
  simp only [SecretSubkey.sign] at h
  obtain ⟨kid, hkid, h⟩ := Outcome.bind_ok_iff.mp h
  obtain ⟨sb, hsb, h⟩ := Outcome.bind_ok_iff.mp h
  injection h with h
  subst h
  exact ⟨rfl, rfl⟩

/-- C1: for every primary-key parameter configuration (builder with key type
and primary user id set), finalizing the builder fails — before any key
material is generated, since `build` never touches a random source — exactly
when the configuration is one of the three hard incompatibilities: RSA with
bit-size < 2048, EdDSA with can_encrypt = true, or ECDH with can_sign = true;
every other combination of algorithm and capability booleans is accepted. -/
theorem secretKeyParamsBuilder_build_validation_iff
    (b : SecretKeyParamsBuilder) (now : DateTime) (kt : KeyType) (uid : String)
    (hk : b.key_type = some kt) (hp : b.primary_user_id = some uid) :
    exceptOk (b.build now) = false ↔
      hardIncompatibility kt b.can_sign b.can_encrypt = true := by
  cases kt with
  | Rsa size =>
    by_cases hs : size < 2048 <;>
      simp [SecretKeyParamsBuilder.build, SecretKeyParamsBuilder.validate, hk, hp,
        hardIncompatibility, hs, exceptOk]
  | EdDSA =>
    rcases hce : b.can_encrypt with _ | ce
    · simp [SecretKeyParamsBuilder.build, SecretKeyParamsBuilder.validate, hk, hp,
        hardIncompatibility, hce, exceptOk]
    · cases ce <;>
        simp [SecretKeyParamsBuilder.build, SecretKeyParamsBuilder.validate, hk, hp,
          hardIncompatibility, hce, exceptOk]
  | ECDH =>
    rcases hcs : b.can_sign with _ | cs
    · simp [SecretKeyParamsBuilder.build, SecretKeyParamsBuilder.validate, hk, hp,
        hardIncompatibility, hcs, exceptOk]
    · cases cs <;>
        simp [SecretKeyParamsBuilder.build, SecretKeyParamsBuilder.validate, hk, hp,
          hardIncompatibility, hcs, exceptOk]

/-- Witness for C1 at a concrete input: a builder requesting RSA-1024 with a
primary user id set. -/
theorem secretKeyParamsBuilder_build_validation_iff_instance :
    exceptOk (c1Builder.build 0) = false ↔
      hardIncompatibility (KeyType.Rsa 1024) c1Builder.can_sign c1Builder.can_encrypt = true :=
  secretKeyParamsBuilder_build_validation_iff c1Builder 0 (KeyType.Rsa 1024)
    "Me <me@mail.com>" rfl rfl

/-- C2 counterexample: a subkey builder with `KeyType::EdDSA` and
`can_encrypt(true)` finalizes successfully — `build()` returns Ok, not a
validation error, because `SubkeyParams` derives its builder without a
validation hook. -/
theorem subkeyParamsBuilder_build_accepts_eddsa_encrypt :
    exceptOk (c2SubkeyBuilder.build 0) = true := rfl

/-- C2 (amended): subkey-builder finalization performs no validation at all:
for every subkey configuration with a key type set — including the three
hard incompatibilities — `build()` succeeds; those incompatibilities are
rejected only by the primary-key builder. -/
theorem subkeyParamsBuilder_build_no_validation
    (b : SubkeyParamsBuilder) (now : DateTime) (kt : KeyType)
    (hk : b.key_type = some kt) :
    exceptOk (b.build now) = true := by
  simp [SubkeyParamsBuilder.build, hk, exceptOk]

/-- Witness for the amended C2 at a concrete input: an ECDH subkey builder
with can_sign(true) also finalizes successfully. -/
theorem subkeyParamsBuilder_build_no_validation_instance :
    exceptOk (c2SubkeyBuilderECDH.build 0) = true :=
  subkeyParamsBuilder_build_no_validation c2SubkeyBuilderECDH 0 KeyType.ECDH rfl

/-- C4: for every generated raw secret parameter value, `KeyType::generate`
with no passphrase wraps it as the `Plain` variant unchanged; with a
passphrase it invokes the abstract encryption capability with a freshly
salted string-to-key transform, the fixed symmetric algorithm AES-256 and
checksum-kind id 254, wrapping the result as the `Encrypted` variant. -/
theorem keyType_generate_secret_protection
    (kt : KeyType) (rng : Rng) (pass : String) (pp : PublicParams)
    (plain : PlainSecretParams)
    (h : kt.raw_material rng = Outcome.ok (pp, plain)) :
    kt.generate rng none = Outcome.ok (pp, SecretParams.Plain plain) ∧
    kt.generate rng (some pass) = Outcome.ok (pp, SecretParams.Encrypted
      { plain := plain, passphrase := pass, alg := SymmetricKeyAlgorithm.AES256,
        s2k := StringToKey.new_default rng, version := keyVersionDefault, id := 254 }) := by
  constructor <;>
    simp [KeyType.generate, h, PlainSecretParams.encrypt, Outcome.liftE]

/-- Witness for C4 at a concrete input: an EdDSA key generated from `rng0`,
unprotected and protected under passphrase "hello". -/
theorem keyType_generate_secret_protection_instance :
    KeyType.EdDSA.generate rng0 none = Outcome.ok (eddsaPub0, SecretParams.Plain eddsaPlain0) ∧
    KeyType.EdDSA.generate rng0 (some "hello") = Outcome.ok (eddsaPub0, SecretParams.Encrypted
      { plain := eddsaPlain0, passphrase := "hello", alg := SymmetricKeyAlgorithm.AES256,
        s2k := StringToKey.new_default rng0, version := keyVersionDefault, id := 254 }) :=
  keyType_generate_secret_protection KeyType.EdDSA rng0 "hello" eddsaPub0 eddsaPlain0 (by rfl)

/-- C8: for every random source, the generated ECDH and EdDSA public point
buffers are exactly 33 bytes, the tag byte 0x40 followed by the 32-byte
point; the ECDH secret value is the 32-byte scalar reversed and its public
parameters record SHA-256 and AES-128; the EdDSA secret value is the 32-byte
seed (the first half of the 64-byte keypair buffer). -/
theorem ecdh_eddsa_generated_point_format (rng : Rng) :
    (KeyType.generate_ecdh_key rng).1 =
      PublicParams.ECDH ECCCurve.Curve25519 (0x40 :: rng.x25519Public)
        HashAlgorithm.SHA256 SymmetricKeyAlgorithm.AES128 ∧
    (0x40 :: rng.x25519Public).length = 33 ∧
    (KeyType.generate_ecdh_key rng).2 = PlainSecretParams.ECDH rng.x25519Secret.reverse ∧
    rng.x25519Secret.reverse.length = 32 ∧
    (KeyType.generate_eddsa_key rng).1 =
      PublicParams.EdDSA ECCCurve.Ed25519 (0x40 :: rng.edKeypairBytes.drop 32) ∧
    (0x40 :: rng.edKeypairBytes.drop 32).length = 33 ∧
    (KeyType.generate_eddsa_key rng).2 = PlainSecretParams.EdDSA (rng.edKeypairBytes.take 32) ∧
    (rng.edKeypairBytes.take 32).length = 32 ∧
    KeyType.ECDH.raw_material rng = Outcome.ok (KeyType.generate_ecdh_key rng) ∧
    KeyType.EdDSA.raw_material rng = Outcome.ok (KeyType.generate_eddsa_key rng) := by
  refine ⟨rfl, ?_, rfl, ?_, rfl, ?_, rfl, ?_, rfl, rfl⟩
  · simp [rng.x25519PublicLen]
  · simp [rng.x25519SecretLen]
  · simp [rng.edKeypairLen]
  · simp [rng.edKeypairLen]

/-- Witness for C8 at the concrete random source `rng0`. -/
theorem ecdh_eddsa_generated_point_format_instance :
    (KeyType.generate_ecdh_key rng0).1 =
      PublicParams.ECDH ECCCurve.Curve25519 (0x40 :: rng0.x25519Public)
        HashAlgorithm.SHA256 SymmetricKeyAlgorithm.AES128 ∧
    (0x40 :: rng0.x25519Public).length = 33 ∧
    (KeyType.generate_ecdh_key rng0).2 = PlainSecretParams.ECDH rng0.x25519Secret.reverse ∧
    rng0.x25519Secret.reverse.length = 32 ∧
    (KeyType.generate_eddsa_key rng0).1 =
      PublicParams.EdDSA ECCCurve.Ed25519 (0x40 :: rng0.edKeypairBytes.drop 32) ∧
    (0x40 :: rng0.edKeypairBytes.drop 32).length = 33 ∧
    (KeyType.generate_eddsa_key rng0).2 = PlainSecretParams.EdDSA (rng0.edKeypairBytes.take 32) ∧
    (rng0.edKeypairBytes.take 32).length = 32 ∧
    KeyType.ECDH.raw_material rng0 = Outcome.ok (KeyType.generate_ecdh_key rng0) ∧
    KeyType.EdDSA.raw_material rng0 = Outcome.ok (KeyType.generate_eddsa_key rng0) :=
  ecdh_eddsa_generated_point_format rng0

/-- C7: for every valid configuration, a successful
`SecretKeyParams::generate` yields a `SecretKey` with an empty public-subkey
list and one generated secret subkey per subkey configuration in
configuration order; key flags of the primary key and of every subkey are
derived deterministically from the capability booleans, with
can_encrypt = true setting both encrypt-communications and encrypt-storage. -/
theorem secretKeyParams_generate_structure
    (p : SecretKeyParams) (rngs : Nat → Rng) (sk : SecretKey)
    (h : p.generate rngs = Outcome.ok sk) :
    sk.public_subkeys = [] ∧
    sk.details.keyflags =
      { certify := p.can_create_certificates, sign := p.can_sign,
        encrypt_comms := p.can_encrypt, encrypt_storage := p.can_encrypt } ∧
    sk.secret_subkeys.map SecretSubkey.keyflags =
      p.subkeys.map (fun s =>
        { certify := s.can_create_certificates, sign := s.can_sign,
          encrypt_comms := s.can_encrypt, encrypt_storage := s.can_encrypt }) ∧
    sk.secret_subkeys.map (fun s => s.key.details.algorithm) =
      p.subkeys.map (fun s => s.key_type.to_alg) ∧
    sk.secret_subkeys.map (fun s => s.key.details.created_at) =
      p.subkeys.map (fun s => s.created_at) := by
  simp only [SecretKeyParams.generate] at h
  obtain ⟨pair, hpair, h⟩ := Outcome.bind_ok_iff.mp h
  obtain ⟨subs, hsubs, h⟩ := Outcome.bind_ok_iff.mp h
  injection h with h
  subst h
  refine ⟨rfl, rfl, ?_, ?_, ?_⟩
  · refine collectOutcomeIdx_ok_map ?_ hsubs
    intro i a b hb
    obtain ⟨sp, hsp, hb⟩ := Outcome.bind_ok_iff.mp hb
    injection hb with hb
    subst hb
    rfl
  · refine collectOutcomeIdx_ok_map ?_ hsubs
    intro i a b hb
    obtain ⟨sp, hsp, hb⟩ := Outcome.bind_ok_iff.mp hb
    injection hb with hb
    subst hb
    rfl
  · refine collectOutcomeIdx_ok_map ?_ hsubs
    intro i a b hb
    obtain ⟨sp, hsp, hb⟩ := Outcome.bind_ok_iff.mp hb
    injection hb with hb
    subst hb
    rfl

/-- Witness for C7 at a concrete input: an EdDSA sign/certify primary with
one ECDH encrypt-only subkey configuration. -/
theorem secretKeyParams_generate_structure_instance :
    sk0.public_subkeys = [] ∧
    sk0.details.keyflags =
      { certify := true, sign := true, encrypt_comms := false, encrypt_storage := false } ∧
    sk0.secret_subkeys.map SecretSubkey.keyflags =
      [{ certify := false, sign := false, encrypt_comms := true, encrypt_storage := true }] ∧
    sk0.secret_subkeys.map (fun s => s.key.details.algorithm) = [PublicKeyAlgorithm.ECDH] ∧
    sk0.secret_subkeys.map (fun s => s.key.details.created_at) = [50] :=
  secretKeyParams_generate_structure p0 rngs0 sk0 (by rfl)

/-- C10: for every configuration with an expiration duration set, the
generated key packet stores the duration's whole-second count reduced modulo
2^16 (the `as u16` cast), for the primary key and for every subkey; a
duration of 65536 seconds or more silently wraps instead of failing. -/
theorem generate_expiration_truncates_u16
    (p : SecretKeyParams) (rngs : Nat → Rng) (sk : SecretKey)
    (h : p.generate rngs = Outcome.ok sk) :
    sk.primary_key.details.expiration = p.expiration.map (fun v => v % 65536) ∧
    sk.secret_subkeys.map (fun s => s.key.details.expiration) =
      p.subkeys.map (fun s => s.expiration.map (fun v => v % 65536)) := by
  simp only [SecretKeyParams.generate] at h
  obtain ⟨pair, hpair, h⟩ := Outcome.bind_ok_iff.mp h
  obtain ⟨subs, hsubs, h⟩ := Outcome.bind_ok_iff.mp h
  injection h with h
  subst h
  refine ⟨rfl, ?_⟩
  refine collectOutcomeIdx_ok_map ?_ hsubs
  intro i a b hb
  obtain ⟨sp, hsp, hb⟩ := Outcome.bind_ok_iff.mp hb
  injection hb with hb
  subst hb
  rfl

/-- Witness for C10 at a concrete input: primary and subkey expirations of
70000 seconds are stored as 70000 mod 65536 = 4464, and generation
succeeds. -/
theorem generate_expiration_truncates_u16_instance :
    sk0.primary_key.details.expiration = some 4464 ∧
    sk0.secret_subkeys.map (fun s => s.key.details.expiration) = [some 4464] :=
  generate_expiration_truncates_u16 p0 rngs0 sk0 (by rfl)

/-- C3: for every key object signed successfully by `SecretKey::sign`, the
signature list is ordered deterministically: the primary-user-id
self-signature first, then one signature per additional user id in original
insertion order, then user attributes in original list order, then public
subkeys in list order, then secret subkeys in list order. -/
theorem secretKey_sign_signature_order
    (env : SignEnv) (sk : SecretKey) (pw : String) (r : SignedSecretKey)
    (h : SecretKey.sign env sk pw = Outcome.ok r) :
    r.signatureSubjects =
      SigSubject.user sk.details.primary_user_id ::
        (sk.details.user_ids.map SigSubject.user ++
         sk.details.user_attributes.map SigSubject.attr ++
         sk.public_subkeys.map (fun k => SigSubject.pubSub k.key) ++
         sk.secret_subkeys.map (fun k => SigSubject.secSub k.key)) ∧
    r.details.users.map (fun u => u.signatures.length) =
      (sk.details.primary_user_id :: sk.details.user_ids).map (fun _ => 1) ∧
    r.public_subkeys.map (fun k => k.signatures.length) =
      sk.public_subkeys.map (fun _ => 1) ∧
    r.secret_subkeys.map (fun k => k.signatures.length) =
      sk.secret_subkeys.map (fun _ => 1) := by
  simp only [SecretKey.sign] at h
  obtain ⟨det, hdet, h⟩ := Outcome.bind_ok_iff.mp h
  obtain ⟨pubs, hpubs, h⟩ := Outcome.bind_ok_iff.mp h
  obtain ⟨secs, hsecs, h⟩ := Outcome.bind_ok_iff.mp h
  injection h with h
  subst h
  obtain ⟨hids, hulens, hattrs⟩ := keyDetails_sign_shape hdet
  have hpkeys : pubs.map SignedPublicSubKey.key = sk.public_subkeys.map (fun k => k.key) :=
    collectOutcome_ok_map (fun a b hb => (publicSubkey_sign_shape hb).1) hpubs
  have hplens : pubs.map (fun k => k.signatures.length) = sk.public_subkeys.map (fun _ => 1) :=
    collectOutcome_ok_map (fun a b hb => (publicSubkey_sign_shape hb).2) hpubs
  have hskeys : secs.map SignedSecretSubKey.key = sk.secret_subkeys.map (fun k => k.key) :=
    collectOutcome_ok_map (fun a b hb => (secretSubkey_sign_shape hb).1) hsecs
  have hslens : secs.map (fun k => k.signatures.length) = sk.secret_subkeys.map (fun _ => 1) :=
    collectOutcome_ok_map (fun a b hb => (secretSubkey_sign_shape hb).2) hsecs
  refine ⟨?_, hulens, hplens, hslens⟩
  have h1 : det.users.map (fun u => SigSubject.user u.id) =
      SigSubject.user sk.details.primary_user_id ::
        sk.details.user_ids.map SigSubject.user := by
    have := congrArg (List.map SigSubject.user) hids
    simpa [List.map_map, Function.comp] using this
  have h2 : det.user_attributes.map (fun a => SigSubject.attr a.attr) =
      sk.details.user_attributes.map SigSubject.attr := by
    have := congrArg (List.map SigSubject.attr) hattrs
    simpa [List.map_map, Function.comp] using this
  have h3 : pubs.map (fun k => SigSubject.pubSub k.key) =
      sk.public_subkeys.map (fun k => SigSubject.pubSub k.key) := by
    have := congrArg (List.map SigSubject.pubSub) hpkeys
    simpa [List.map_map, Function.comp] using this
  have h4 : secs.map (fun k => SigSubject.secSub k.key) =
      sk.secret_subkeys.map (fun k => SigSubject.secSub k.key) := by
    have := congrArg (List.map SigSubject.secSub) hskeys
    simpa [List.map_map, Function.comp] using this
  simp [SignedSecretKey.signatureSubjects, h1, h2, h3, h4, List.append_assoc]

/-- Witness for C3 at a concrete input: a secret key with two additional
user ids, one user attribute, one public subkey and one secret subkey. -/
theorem secretKey_sign_signature_order_instance :
    r3.signatureSubjects =
      SigSubject.user sk3.details.primary_user_id ::
        (sk3.details.user_ids.map SigSubject.user ++
         sk3.details.user_attributes.map SigSubject.attr ++
         sk3.public_subkeys.map (fun k => SigSubject.pubSub k.key) ++
         sk3.secret_subkeys.map (fun k => SigSubject.secSub k.key)) ∧
    r3.details.users.map (fun u => u.signatures.length) =
      (sk3.details.primary_user_id :: sk3.details.user_ids).map (fun _ => 1) ∧
    r3.public_subkeys.map (fun k => k.signatures.length) =
      sk3.public_subkeys.map (fun _ => 1) ∧
    r3.secret_subkeys.map (fun k => k.signatures.length) =
      sk3.secret_subkeys.map (fun _ => 1) :=
  secretKey_sign_signature_order env0 sk3 "pw" r3 (by rfl)

/-- C5 counterexample (against the claim as stated): with a revocation key
set, the additional-user-id signature's hashed subpackets are not the
primary signature's hashed subpackets minus is-primary — the revocation-key
subpacket appears in the primary-user-id signature but not in the
additional-user-id signature. -/
theorem keyDetails_sign_additional_uid_omits_revocation :
    Subpacket.RevocationKey { code := 5 } ∈
      ((c5r.users.getD 0 default).signatures.getD 0 default).config.hashed_subpackets ∧
    Subpacket.RevocationKey { code := 5 } ∉
      ((c5r.users.getD 1 default).signatures.getD 0 default).config.hashed_subpackets := by
  decide

/-- C5 (amended): for every `KeyDetails` signed successfully, the
primary-user-id self-signature's configuration is exactly
`primaryUserIdCertConfig` — generic certification, hashed subpackets
{is-primary = true, creation time, key flags, preferred
symmetric/hash/compression lists, plus the revocation key when set},
unhashed subpackets {issuer key id, issuer fingerprint} — and every
additional user id gets exactly one signature with configuration
`additionalUserIdCertConfig`, whose hashed subpackets are {creation time,
key flags, preference lists}: both the is-primary subpacket and the
revocation-key subpacket are omitted. -/
theorem keyDetails_sign_certification_subpackets
    (env : SignEnv) (d : KeyDetails) (key : SignerKey) (pw : String) (kid : KeyId)
    (r : SignedKeyDetails) (hk : key.key_id = some kid)
    (h : KeyDetails.sign env d key pw = Outcome.ok r) :
    r.users.map (fun u => u.signatures.map Signature.config) =
      [primaryUserIdCertConfig env d key kid] ::
        d.user_ids.map (fun _ => [additionalUserIdCertConfig env d key kid]) := by
  simp only [KeyDetails.sign, hk, Outcome.expectSome, Outcome.ok_bind] at h
  obtain ⟨sb, hsb, h⟩ := Outcome.bind_ok_iff.mp h
  obtain ⟨others, hothers, h⟩ := Outcome.bind_ok_iff.mp h
  obtain ⟨attrs, hattrs, h⟩ := Outcome.bind_ok_iff.mp h
  injection h with h
  subst h
  have hoth : others.map (fun u => u.signatures.map Signature.config) =
      d.user_ids.map (fun _ => [additionalUserIdCertConfig env d key kid]) := by
    refine collectOutcome_ok_map ?_ hothers
    intro uid su hsu
    obtain ⟨sb2, hsb2, hsu⟩ := Outcome.bind_ok_iff.mp hsu
    injection hsu with hsu
    subst hsu
    rfl
  simpa using congrArg
    (List.cons [primaryUserIdCertConfig env d key kid]) hoth

/-- Witness for the amended C5 at a concrete input: `d5` has a revocation
key set and one additional user id. -/
theorem keyDetails_sign_certification_subpackets_instance :
    c5r.users.map (fun u => u.signatures.map Signature.config) =
      [primaryUserIdCertConfig env0 d5 key0 7] ::
        d5.user_ids.map (fun _ => [additionalUserIdCertConfig env0 d5 key0 7]) :=
  keyDetails_sign_certification_subpackets env0 d5 key0 "pw" 7 c5r rfl (by rfl)

/-- C6: for every subkey, the binding signature configuration is
`subkeyBindingConfig` — subkey binding type, hashed subpackets exactly
{creation time, the subkey's key flags}, unhashed subpackets exactly
{issuer key id, issuer fingerprint} of the primary key; each public and each
secret subkey gets exactly one binding signature, the secret subkey's
computed over its secret-subkey packet form by the distinct
`sign_key_binding` routine. -/
theorem subkey_sign_binding_subpackets
    (env : SignEnv) (s1 : PublicSubkey) (s2 : SecretSubkey) (key : SignerKey)
    (pw : String) (kid : KeyId) (b1 b2 : List Byte)
    (hk : key.key_id = some kid) :
    (env.sign_key (subkeyBindingConfig env s1.keyflags key kid) pw s1.key = Except.ok b1 →
      PublicSubkey.sign env s1 key pw = Outcome.ok
        { key := s1.key
          signatures :=
            [{ config := subkeyBindingConfig env s1.keyflags key kid, bytes := b1 }] }) ∧
    (env.sign_key_binding (subkeyBindingConfig env s2.keyflags key kid) pw s2.key =
        Except.ok b2 →
      SecretSubkey.sign env s2 key pw = Outcome.ok
        { key := s2.key
          signatures :=
            [{ config := subkeyBindingConfig env s2.keyflags key kid, bytes := b2 }] }) := by
  constructor
  · intro hb
    simp [PublicSubkey.sign, hk, Outcome.expectSome, hb, Outcome.liftE]
  · intro hb
    simp [SecretSubkey.sign, hk, Outcome.expectSome, hb, Outcome.liftE]

/-- Witness for C6 at a concrete input: `pubSub0` and `secSub0` bound by
`key0` under environment `env0`. -/
theorem subkey_sign_binding_subpackets_instance :
    PublicSubkey.sign env0 pubSub0 key0 "pw" = Outcome.ok
      { key := pubSub0.key
        signatures :=
          [{ config := subkeyBindingConfig env0 pubSub0.keyflags key0 7, bytes := [6] }] } ∧
    SecretSubkey.sign env0 secSub0 key0 "pw" = Outcome.ok
      { key := secSub0.key
        signatures :=
          [{ config := subkeyBindingConfig env0 secSub0.keyflags key0 7, bytes := [7] }] } :=
  ⟨(subkey_sign_binding_subpackets env0 pubSub0 secSub0 key0 "pw" 7 [6] [7] rfl).1 rfl,
   (subkey_sign_binding_subpackets env0 pubSub0 secSub0 key0 "pw" 7 [6] [7] rfl).2 rfl⟩

/-- C9: for every signing operation, a signing key whose key id is
unavailable makes the operation abort fatally with the
`expect("missing key id")` panic — not a recoverable error — and under the
precondition that the key id is derivable, that fatal branch is
unreachable. -/
theorem sign_missing_key_id_panics
    (env : SignEnv) (d : KeyDetails) (s1 : PublicSubkey) (s2 : SecretSubkey)
    (key : SignerKey) (pw : String) :
    (key.key_id = none →
      KeyDetails.sign env d key pw = Outcome.panic "missing key id" ∧
      PublicSubkey.sign env s1 key pw = Outcome.panic "missing key id" ∧
      SecretSubkey.sign env s2 key pw = Outcome.panic "missing key id") ∧
    (key.key_id ≠ none →
      (KeyDetails.sign env d key pw).isPanic = false ∧
      (PublicSubkey.sign env s1 key pw).isPanic = false ∧
      (SecretSubkey.sign env s2 key pw).isPanic = false) := by
  constructor
  · intro hk
    refine ⟨?_, ?_, ?_⟩ <;>
      simp [KeyDetails.sign, PublicSubkey.sign, SecretSubkey.sign, hk, Outcome.expectSome]
  · intro hk
    obtain ⟨kid, hkid⟩ := Option.ne_none_iff_exists'.mp hk
    refine ⟨?_, ?_, ?_⟩
    · simp only [KeyDetails.sign]
      refine Outcome.isPanic_bind ?_ ?_
      · rw [hkid]; rfl
      · intro k1
        refine Outcome.isPanic_bind (by simp) ?_
        intro sb
        refine Outcome.isPanic_bind ?_ ?_
        · refine collectOutcome_isPanic ?_ _
          intro uid
          refine Outcome.isPanic_bind ?_ ?_
          · rw [hkid]; rfl
          · intro k2
            refine Outcome.isPanic_bind (by simp) ?_
            intro sb2
            rfl
        · intro others
          refine Outcome.isPanic_bind ?_ ?_
          · refine collectOutcome_isPanic ?_ _
            intro u
            refine Outcome.isPanic_bind (by simp) ?_
            intro sigs
            rfl
          · intro attrs
            rfl
    · simp only [PublicSubkey.sign]
      refine Outcome.isPanic_bind ?_ ?_
      · rw [hkid]; rfl
      · intro k1
        refine Outcome.isPanic_bind (by simp) ?_
        intro sb
        rfl
    · simp only [SecretSubkey.sign]
      refine Outcome.isPanic_bind ?_ ?_
      · rw [hkid]; rfl
      · intro k1
        refine Outcome.isPanic_bind (by simp) ?_
        intro sb
        rfl

/-- Witness for C9 at concrete inputs: `keyNoId` has no derivable key id and
makes `KeyDetails::sign` abort fatally; `key0` has one and never reaches the
fatal branch. -/
theorem sign_missing_key_id_panics_instance :
    KeyDetails.sign env0 d3 keyNoId "pw" = Outcome.panic "missing key id" ∧
    PublicSubkey.sign env0 pubSub0 keyNoId "pw" = Outcome.panic "missing key id" ∧
    SecretSubkey.sign env0 secSub0 keyNoId "pw" = Outcome.panic "missing key id" ∧
    (KeyDetails.sign env0 d3 key0 "pw").isPanic = false ∧
    (PublicSubkey.sign env0 pubSub0 key0 "pw").isPanic = false ∧
    (SecretSubkey.sign env0 secSub0 key0 "pw").isPanic = false := by
  obtain ⟨ha, hb, hc⟩ :=
    (sign_missing_key_id_panics env0 d3 pubSub0 secSub0 keyNoId "pw").1 rfl
  obtain ⟨hd, he, hf⟩ :=
    (sign_missing_key_id_panics env0 d3 pubSub0 secSub0 key0 "pw").2 (by decide)
  exact ⟨ha, hb, hc, hd, he, hf⟩

end Rpgp
